import Mathlib

/-!
Shallow embedding of the R-Link plugin lifecycle core
(src/R-Link-Server/core/{plugin_interface,process_pool,plugin_manager,python_plugin}.py).

Modelling conventions:
* Python dicts used as configuration documents become insertion-ordered
  association lists over string keys and string values (`Config`); the
  semantics of `dict.copy()` followed by `dict.update(other)` is `dictUpdate`.
* A `psutil.Popen` handle is modelled by `Proc`: its pid, the value its
  `is_running()` probe reports, and the value its `exe()` call yields
  (`none` when that call raises `NoSuchProcess` because the process is gone).
* The process pool keys `ProcessInfo` records by plugin name; every pool
  operation touches at most the entry of one name, so operations here act on
  an `Option ProcessInfo` (with `none` meaning the name is untracked).
* Environmental effects (spawning, clock, probe/stop exceptions, thread join
  timing out) enter as explicit parameters; filesystem documents (the
  persisted per-plugin config, the log file) are carried as explicit state.
* Wall-clock instants are naturals (seconds); resource samples are naturals.
-/

namespace RLink

/-- The five-valued public plugin status (plugin_interface.PluginStatus). -/
inductive PluginStatus
  | stopped
  | starting
  | running
  | stopping
  | error
  deriving DecidableEq, Repr

/-- The four-valued internal Python-plugin status
(python_plugin.PythonPluginStatus). -/
inductive PyStatus
  | unloaded
  | loaded
  | running
  | error
  deriving DecidableEq, Repr

/-- The string `.value` of each PythonPluginStatus member. -/
def PyStatus.value : PyStatus → String
  | .unloaded => "unloaded"
  | .loaded => "loaded"
  | .running => "running"
  | .error => "error"

/-- A JSON-style configuration document: an insertion-ordered association
list of string keys and (abstracted) string values, mirroring a Python dict. -/
abbrev Config := List (String × String)

/-- Setting one key of a Python dict: replace in place when present,
append otherwise. -/
def dictInsert (d : Config) (k v : String) : Config :=
  match d with
  | [] => [(k, v)]
  | (k₀, v₀) :: rest =>
      if k₀ = k then (k, v) :: rest else (k₀, v₀) :: dictInsert rest k v

/-- Python `base.update(upd)` on a copy of `base`. -/
def dictUpdate (base upd : Config) : Config :=
  upd.foldl (fun acc kv => dictInsert acc kv.1 kv.2) base

/-- Lookup in a configuration document. -/
def dictFind (d : Config) (k : String) : Option String :=
  (d.find? (fun kv => kv.1 == k)).map (fun kv => kv.2)

/-- A psutil.Popen handle as the supervisor observes it: the pid, the value
reported by `is_running()`, and the value yielded by `exe()` (`none` models
the `NoSuchProcess` exception raised once the process is gone). -/
structure Proc where
  pid : Nat
  alive : Bool
  exe : Option String
  deriving DecidableEq, Repr

/-- process_pool.ProcessInfo for one plugin: the stored handle, the cached
status, the recorded start time, and the advertised port (never assigned by
the pool, so it stays `none` unless set externally).  The `plugin_name`,
`config` and `log_file` fields of the source are bookkeeping the lifecycle
operations never branch on and are not carried here; the log file content is
passed to `get_process_logs` directly. -/
structure ProcessInfo where
  process : Option Proc := none
  status : PluginStatus := .stopped
  start_time : Option Nat := none
  port : Option Nat := none
  deriving DecidableEq, Repr

/-- plugin_interface.PluginState, the public status snapshot. -/
structure PluginState where
  status : PluginStatus
  pid : Option Nat := none
  port : Option Nat := none
  uptime : Nat := 0
  memory_usage : Nat := 0
  cpu_usage : Nat := 0
  last_error : Option String := none
  deriving DecidableEq, Repr

namespace ProcessPool

/-- ProcessPool.start_process(name, binary_path, args, env, working_dir),
restricted to the entry of one name.  `spawn` is the environment: the outcome
of `psutil.Popen` on a given command path (`none` when the spawn — or the
log-file open preceding it — raises; the exception branch then sets Error).
`now` feeds `start_time`.  When the name is untracked, `add_process` first
installs a fresh `ProcessInfo`.  Mirroring the source, the handle and the
start time are assigned before the spawn-confirmation probe, so a spawn whose
`is_running()` reports false leaves the dead handle stored under status
Error. -/
def start_process (st : Option ProcessInfo) (binary_path : String)
    (spawn : String → Option Proc) (now : Nat) : Option ProcessInfo × Bool :=
  let pi := st.getD {}
  if pi.status = .running then
    (some pi, false)
  else
    match spawn binary_path with
    | none => (some { pi with status := .error }, false)
    | some p =>
        let pi := { pi with process := some p, start_time := some now }
        if p.alive then (some { pi with status := .running }, true)
        else (some { pi with status := .error }, false)

/-- ProcessPool.stop_process(name, timeout), restricted to one entry.
Untracked names yield false; a non-Running entry yields true unchanged.
Otherwise the terminate/wait/kill escalation runs: `stopRaises` models an
exception from that sequence (the except branch leaves the handle in place
under status Error); on the normal path the handle and start time are cleared
and the status becomes Stopped.  The transient Stopping assignment made
before the try block is not observable in the returned state. -/
def stop_process (st : Option ProcessInfo) (stopRaises : Bool) :
    Option ProcessInfo × Bool :=
  match st with
  | none => (none, false)
  | some pi =>
      if pi.status ≠ .running then (some pi, true)
      else if stopRaises then (some { pi with status := .error }, false)
      else (some { pi with status := .stopped, process := none, start_time := none }, true)

/-- ProcessPool.get_process_state(name): probes liveness through the stored
handle — updating the cached status in place (the bare except around the
probe maps a raising `is_running()` to Error) — computes uptime only while
Running, samples memory/CPU (`mem`/`cpu`, taken only from a live process;
a raising sampler degrades to zero and is subsumed by passing zeros), and
returns the refreshed entry with the snapshot.  The probe does not clear the
handle: an externally killed process leaves its dead handle stored under
status Stopped. -/
def get_process_state (st : Option ProcessInfo) (probeRaises : Bool)
    (now : Nat) (mem cpu : Nat) : Option ProcessInfo × Option PluginState :=
  match st with
  | none => (none, none)
  | some pi =>
      let pi :=
        match pi.process with
        | none => pi
        | some p =>
            if probeRaises then { pi with status := .error }
            else if p.alive then { pi with status := .running }
            else { pi with status := .stopped }
      let uptime :=
        match pi.start_time with
        | some t => if pi.status = .running then now - t else 0
        | none => 0
      let liveSample :=
        match pi.process with
        | some p => p.alive && !probeRaises
        | none => false
      (some pi,
       some { status := pi.status
              pid := pi.process.map (fun p => p.pid)
              port := pi.port
              uptime := uptime
              memory_usage := if liveSample then mem else 0
              cpu_usage := if liveSample then cpu else 0 })

/-- ProcessPool.restart_process(name): re-derives the binary path from the
live handle via `exe()` — not from the manifest.  `Except.error` surfaces the
uncaught `NoSuchProcess` that `exe()` raises once the process has exited;
an absent handle (or a falsy empty path) is reported as a failure before any
stop/start happens.  Only on a healthy handle does stop-then-start run, with
the re-derived path fed to the spawn. -/
def restart_process (st : Option ProcessInfo) (spawn : String → Option Proc)
    (stopRaises : Bool) (now : Nat) : Except Unit (Option ProcessInfo × Bool) :=
  match st with
  | none => .ok (none, false)
  | some pi =>
      match pi.process with
      | none => .ok (some pi, false)
      | some p =>
          match p.exe with
          | none => .error ()
          | some path =>
              if path = "" then .ok (some pi, false)
              else
                let st₁ := (stop_process (some pi) stopRaises).1
                .ok (start_process st₁ path spawn now)

/-- The Python list slice `xs[-n:]` for a non-negative `n`: the whole list
when `n = 0` (since `-0 = 0`), otherwise the last `n` elements. -/
def pyTail (xs : List String) (n : Nat) : List String :=
  if n = 0 then xs else xs.drop (xs.length - n)

/-- ProcessPool.get_process_logs(name, lines), restricted to one entry.
`tracked` is membership of the name in the pool; `logFile` is the log file
content as the list of lines `readlines()` yields (`none`: the file does not
exist).  The source joins the slice into one string — the empty string is the
join of the empty list — so the model returns the sliced line list. -/
def get_process_logs (tracked : Bool) (logFile : Option (List String))
    (lines : Nat) : List String :=
  if tracked then
    match logFile with
    | none => []
    | some ls => pyTail ls lines
  else []

end ProcessPool

/-- plugin_manager.PluginManifest, restricted to the fields the lifecycle
operations read: the unique name, the executable entry, the default
configuration, the declared command names (the keys of the manifest
commands mapping — never consulted by any operation below), and the
protected flag.  Version/description/author/icon/category/ui_template and
the dependency list are descriptive only. -/
structure PluginManifest where
  name : String
  binary : String
  default_config : Config := []
  commands : List String := []
  builtin : Bool := false
  deriving DecidableEq, Repr

/-- plugin_manager.BinaryPlugin: its manifest, its directory, its entry in
the shared ProcessPool (the pool keyed by the manifest name), and the
on-disk persisted configuration document at config_path (`none`: no file). -/
structure BinaryPlugin where
  manifest : PluginManifest
  plugin_dir : String
  pool : Option ProcessInfo := none
  persisted : Option Config := none
  deriving DecidableEq, Repr

/-- The executable path recorded at wrap time: plugin_dir joined with the
binary entry of the manifest. -/
def BinaryPlugin.binary_path (b : BinaryPlugin) : String :=
  b.plugin_dir ++ "/" ++ b.manifest.binary

/-- BinaryPlugin.start(config): copies the default_config of the manifest and
updates it with the override — the persisted document is not read — then
saves the merged document and delegates to ProcessPool.start_process with
the wrap-time binary path.  The arg/env vectors built from the merged config
feed only the spawned command and live inside `spawn`. -/
def BinaryPlugin.start (b : BinaryPlugin) (config : Option Config)
    (spawn : String → Option Proc) (now : Nat) : BinaryPlugin × Bool :=
  let final_config := dictUpdate b.manifest.default_config (config.getD [])
  let b := { b with persisted := some final_config }
  let r := ProcessPool.start_process b.pool b.binary_path spawn now
  ({ b with pool := r.1 }, r.2)

/-- BinaryPlugin.stop: delegates to ProcessPool.stop_process. -/
def BinaryPlugin.stop (b : BinaryPlugin) (stopRaises : Bool) :
    BinaryPlugin × Bool :=
  let r := ProcessPool.stop_process b.pool stopRaises
  ({ b with pool := r.1 }, r.2)

/-- BinaryPlugin.restart: delegates to ProcessPool.restart_process; the
uncaught exe() exception propagates. -/
def BinaryPlugin.restart (b : BinaryPlugin) (spawn : String → Option Proc)
    (stopRaises : Bool) (now : Nat) : Except Unit (BinaryPlugin × Bool) :=
  match ProcessPool.restart_process b.pool spawn stopRaises now with
  | .error e => .error e
  | .ok r => .ok ({ b with pool := r.1 }, r.2)

/-- BinaryPlugin.get_status: delegates to ProcessPool.get_process_state
(which refreshes the stored status as a side effect). -/
def BinaryPlugin.get_status (b : BinaryPlugin) (probeRaises : Bool)
    (now mem cpu : Nat) : BinaryPlugin × Option PluginState :=
  let r := ProcessPool.get_process_state b.pool probeRaises now mem cpu
  ({ b with pool := r.1 }, r.2)

/-- BinaryPlugin.get_config: the persisted document when the file exists,
else a copy of the default_config of the manifest (a file that fails to parse
also falls back to the default and is not distinguished here). -/
def BinaryPlugin.get_config (b : BinaryPlugin) : Config :=
  b.persisted.getD b.manifest.default_config

/-- BinaryPlugin.set_config: saves the document, probes the status and,
exactly when the probe reports Running, triggers one restart.  The
surrounding try/except turns any raise into false: an untracked pool entry
(get_status yields no state, so reading .status raises AttributeError) and
the uncaught exe() exception of restart are both caught here. -/
def BinaryPlugin.set_config (b : BinaryPlugin) (config : Config)
    (spawn : String → Option Proc) (probeRaises stopRaises : Bool)
    (now : Nat) : BinaryPlugin × Bool :=
  let b := { b with persisted := some config }
  let probed := b.get_status probeRaises now 0 0
  let b := probed.1
  match probed.2 with
  | none => (b, false)
  | some st =>
      if st.status = .running then
        match b.restart spawn stopRaises now with
        | .error _ => (b, false)
        | .ok r => r
      else (b, true)

/-- BinaryPlugin.get_logs: delegates to ProcessPool.get_process_logs. -/
def BinaryPlugin.get_logs (tracked : Bool) (logFile : Option (List String))
    (lines : Nat) : List String :=
  ProcessPool.get_process_logs tracked logFile lines

/-- What `getattr(instance, name)` yields for a present attribute of a live
plugin object: a callable that returns normally, a callable that raises when
invoked, or a non-callable value.  Absent names are simply not listed. -/
inductive AttrKind
  | callableOk
  | callableRaises
  | plain
  deriving DecidableEq, Repr

/-- A live instantiated plugin object: its attribute table and the merged
configuration it was constructed with. -/
structure PyInstance where
  attrs : List (String × AttrKind)
  config : Config
  deriving DecidableEq, Repr

/-- getattr(instance, name, None): the attribute kind when present. -/
def PyInstance.getattr (i : PyInstance) (name : String) : Option AttrKind :=
  (i.attrs.find? (fun a => a.1 == name)).map (fun a => a.2)

/-- hasattr(instance, name) and callable(getattr(instance, name)). -/
def PyInstance.has_callable (i : PyInstance) (name : String) : Bool :=
  match i.getattr name with
  | some .callableOk => true
  | some .callableRaises => true
  | _ => false

/-- Behaviour of the code unit of a plugin as the loader observes it: whether the
entry file is found and imports, whether the imported module exposes a
Plugin class, whether the constructor of that class returns normally, and the
attribute table a freshly constructed instance carries. -/
structure PyModuleEnv where
  load_ok : Bool
  has_plugin_class : Bool := true
  init_ok : Bool := true
  new_attrs : List (String × AttrKind) := []
  deriving DecidableEq, Repr

/-- python_plugin.PythonPluginInfo, restricted to the fields the lifecycle
operations read (version/description/author/category/icon/ui_template and
the dependency list are descriptive; the info declares no command list). -/
structure PythonPluginInfo where
  name : String
  entry_file : String
  default_config : Config := []
  builtin : Bool := false
  deriving DecidableEq, Repr

/-- python_plugin.PythonPlugin: the info plus the mutable runtime fields —
internal status, whether self.module is assigned, the live instance
(`inst`; the source field is named instance, a reserved word here), whether
the worker thread is alive, whether the stop event is set, and the on-disk
persisted configuration document (`none`: no file). -/
structure PythonPlugin where
  info : PythonPluginInfo
  status : PyStatus := .unloaded
  module_loaded : Bool := false
  inst : Option PyInstance := none
  thread_alive : Bool := false
  stop_event : Bool := false
  persisted : Option Config := none
  deriving DecidableEq, Repr

/-- PythonPlugin.load: imports the entry file; success assigns the module
and moves to Loaded, failure moves to Error (a failure part-way through the
half-done importing may leave a partially initialised module assigned; no
operation below branches on the module field after a failed load, so the
field is left unchanged on that path). -/
def PythonPlugin.load (p : PythonPlugin) (env : PyModuleEnv) :
    PythonPlugin × Bool :=
  if env.load_ok then ({ p with module_loaded := true, status := .loaded }, true)
  else ({ p with status := .error }, false)

/-- PythonPlugin.instantiate(config): re-loads first whenever the internal
status is anything other than Loaded (including Running), then merges the
override onto a copy of the default configuration and constructs the
Plugin class of the module with it.  A missing class or a raising constructor
moves to Error; success stores the fresh instance and moves to Running. -/
def PythonPlugin.instantiate (p : PythonPlugin) (env : PyModuleEnv)
    (config : Option Config) : PythonPlugin × Bool :=
  let loaded : PythonPlugin × Bool :=
    if p.status ≠ .loaded then p.load env else (p, true)
  if loaded.2 = false then (loaded.1, false)
  else
    let p := loaded.1
    let final_config := dictUpdate p.info.default_config (config.getD [])
    if env.has_plugin_class then
      if env.init_ok then
        ({ p with inst := some ⟨env.new_attrs, final_config⟩, status := .running }, true)
      else ({ p with status := .error }, false)
    else ({ p with status := .error }, false)

/-- PythonPlugin.start(config): merges the override onto a copy of the
default configuration — the persisted document is not read — saves the
merged document, then instantiates.  If the fresh instance has a callable
run method, the stop event is cleared and a worker thread is launched (its
eventual completion is the separate `run_finished` transition); otherwise
the plugin counts as Running immediately.  There is no already-running
guard: a Running plugin is re-loaded and re-instantiated. -/
def PythonPlugin.start (p : PythonPlugin) (env : PyModuleEnv)
    (config : Option Config) : PythonPlugin × Bool :=
  let final_config := dictUpdate p.info.default_config (config.getD [])
  let p := { p with persisted := some final_config }
  let inst := p.instantiate env (some final_config)
  if inst.2 = false then (inst.1, false)
  else
    let p := inst.1
    match p.inst with
    | some i =>
        if i.has_callable "run" then
          ({ p with stop_event := false, thread_alive := true }, true)
        else ({ p with status := .running }, true)
    | none => ({ p with status := .running }, true)

/-- The worker thread running _run_plugin reaching its finally block (run
returned or raised): the status is forced back to Loaded. -/
def PythonPlugin.run_finished (p : PythonPlugin) : PythonPlugin :=
  { p with status := .loaded, thread_alive := false }

/-- PythonPlugin.stop: sets the stop event, invokes the stop hook of the instance
hook when one is present and callable (a raising hook is caught and yields
false with no further transition), joins the worker with a bounded wait
(`join_times_out` models the worker outliving the join — the documented
leak), and forces the status to Loaded — also for a plugin that was
Unloaded. -/
def PythonPlugin.stop (p : PythonPlugin) (join_times_out : Bool) :
    PythonPlugin × Bool :=
  let p := { p with stop_event := true }
  let stopHook : Option AttrKind := p.inst.bind (fun i => i.getattr "stop")
  if stopHook = some .callableRaises then (p, false)
  else
    ({ p with status := .loaded,
              thread_alive := p.thread_alive && join_times_out }, true)

/-- PythonPlugin.get_config: the persisted document when the file exists,
else a copy of the default configuration. -/
def PythonPlugin.get_config (p : PythonPlugin) : Config :=
  p.persisted.getD p.info.default_config

/-- PythonPlugin.restart: captures the current persisted (or default)
configuration, stops (ignoring the result), and starts with that
configuration as the override. -/
def PythonPlugin.restart (p : PythonPlugin) (env : PyModuleEnv)
    (join_times_out : Bool) : PythonPlugin × Bool :=
  let config := p.get_config
  let p := (p.stop join_times_out).1
  p.start env (some config)

/-- PythonPlugin.set_config: saves the document, then forwards it to the
live instance when the instance has a set_config attribute (a hook whose
effect on the instance is plugin-defined and not modelled; invoking a
raising hook — or a non-callable attribute of that name, hasattr being the
only check — raises and is caught, yielding false after the save).  No
restart is performed. -/
def PythonPlugin.set_config (p : PythonPlugin) (config : Config) :
    PythonPlugin × Bool :=
  let p := { p with persisted := some config }
  match p.inst.bind (fun i => i.getattr "set_config") with
  | some .callableRaises => (p, false)
  | some .plain => (p, false)
  | _ => (p, true)

/-- The "status" entry of the dict PythonPlugin.get_status returns: the
string value of the internal status (the enum member is always truthy, so
the "unknown" fallback is unreachable). -/
def PythonPlugin.status_value (p : PythonPlugin) : String :=
  p.status.value

/-- Result of PythonPlugin.execute_command / the manager dispatcher. -/
inductive CmdResult
  | errNotRunning
  | invoked (command : String)
  | errNotFound (command : String)
  | errRaised (command : String)
  deriving DecidableEq, Repr

/-- PythonPlugin.execute_command(command, args): without a live instance the
structured Plugin-not-running error; with one, `getattr(instance, command,
None)` — unrestricted attribute lookup — and invocation of any callable
found (a raise inside it is caught into a structured error); absent or
non-callable attributes yield the Command-not-found error with nothing
invoked. -/
def PythonPlugin.execute_command (p : PythonPlugin) (command : String) :
    CmdResult :=
  match p.inst with
  | none => .errNotRunning
  | some i =>
      match i.getattr command with
      | some .callableOk => .invoked command
      | some .callableRaises => .errRaised command
      | _ => .errNotFound command

/-- One entry of the manager plugin table: a binary (process-backed)
plugin or a Python (code-module-backed) plugin. -/
inductive Plugin
  | binary (b : BinaryPlugin)
  | python (p : PythonPlugin)
  deriving DecidableEq, Repr

/-- PluginManager.is_builtin for a present table entry. -/
def Plugin.is_builtin : Plugin → Bool
  | .binary b => b.manifest.builtin
  | .python p => p.info.builtin

/-- Result of PluginManager.execute_command. -/
inductive MgrCmdResult
  | errPluginNotFound
  | errBinaryNotSupported
  | py (r : CmdResult)
  deriving DecidableEq, Repr

namespace PluginManager

/-- PluginManager.start_plugin(name, config): a missing entry yields false,
otherwise delegation to the start of the owning backend. -/
def start_plugin (pl : Option Plugin) (env : PyModuleEnv)
    (config : Option Config) (spawn : String → Option Proc) (now : Nat) :
    Option Plugin × Bool :=
  match pl with
  | none => (none, false)
  | some (.python p) =>
      let r := p.start env config
      (some (.python r.1), r.2)
  | some (.binary b) =>
      let r := b.start config spawn now
      (some (.binary r.1), r.2)

/-- PluginManager.stop_plugin(name): the builtin guard is applied only on
the BinaryPlugin branch; a Python plugin is stopped unconditionally, its
builtin flag never consulted. -/
def stop_plugin (pl : Option Plugin) (stopRaises join_times_out : Bool) :
    Option Plugin × Bool :=
  match pl with
  | none => (none, false)
  | some (.python p) =>
      let r := p.stop join_times_out
      (some (.python r.1), r.2)
  | some (.binary b) =>
      if b.manifest.builtin then (some (.binary b), false)
      else
        let r := b.stop stopRaises
        (some (.binary r.1), r.2)

/-- PluginManager.restart_plugin(name): delegation with no builtin guard at
all; the uncaught exe() exception of the binary backend propagates to the
caller. -/
def restart_plugin (pl : Option Plugin) (env : PyModuleEnv)
    (spawn : String → Option Proc) (stopRaises join_times_out : Bool)
    (now : Nat) : Except Unit (Option Plugin × Bool) :=
  match pl with
  | none => .ok (none, false)
  | some (.python p) =>
      let r := p.restart env join_times_out
      .ok (some (.python r.1), r.2)
  | some (.binary b) =>
      match b.restart spawn stopRaises now with
      | .error e => .error e
      | .ok r => .ok (some (.binary r.1), r.2)

/-- PluginManager.get_plugin_status(name).  For a Python plugin the
four-valued internal status collapses through the string comparison
"status" == "loaded": Loaded maps to Stopped and every other internal
status — Unloaded and Error included — maps to Running; the status dict
carries no pid/port/uptime/usage/error keys, so those fields take their
defaults.  For a binary plugin the pool probe runs (refreshing the stored
status). -/
def get_plugin_status (pl : Option Plugin) (probeRaises : Bool)
    (now mem cpu : Nat) : Option Plugin × Option PluginState :=
  match pl with
  | none => (none, none)
  | some (.python p) =>
      (some (.python p),
       some { status := if p.status_value = "loaded" then .stopped else .running })
  | some (.binary b) =>
      let r := b.get_status probeRaises now mem cpu
      (some (.binary r.1), r.2)

/-- PluginManager.set_plugin_config(name, config): a missing entry yields
false, otherwise delegation to the set_config of the backend. -/
def set_plugin_config (pl : Option Plugin) (config : Config)
    (spawn : String → Option Proc) (probeRaises stopRaises : Bool)
    (now : Nat) : Option Plugin × Bool :=
  match pl with
  | none => (none, false)
  | some (.python p) =>
      let r := p.set_config config
      (some (.python r.1), r.2)
  | some (.binary b) =>
      let r := b.set_config config spawn probeRaises stopRaises now
      (some (.binary r.1), r.2)

/-- PluginManager.execute_command(name, command, args): a missing entry
yields the structured not-found error, a binary plugin the structured
not-supported error with no dispatch attempted, a Python plugin the
result of the runtime dispatcher. -/
def execute_command (pl : Option Plugin) (command : String) : MgrCmdResult :=
  match pl with
  | none => .errPluginNotFound
  | some (.binary _) => .errBinaryNotSupported
  | some (.python p) => .py (p.execute_command command)

end PluginManager

/-! Concrete fixtures used by the claim theorems. -/

/-- A spawn environment that always succeeds: a live process with pid 100
running the requested path. -/
def spawnOk : String → Option Proc :=
  fun path => some { pid := 100, alive := true, exe := some path }

/-- A protected (builtin) code-module-backed plugin fresh from discovery:
never loaded, no instance. -/
def builtinPy : PythonPlugin :=
  { info := { name := "docker_manager", entry_file := "__init__.py", builtin := true } }

/-- A protected (builtin) process-backed plugin currently Running, with a
live tracked process. -/
def builtinBinRunning : BinaryPlugin :=
  { manifest := { name := "guard", binary := "guard-bin", builtin := true }
    plugin_dir := "builtin/guard"
    pool := some { process := some { pid := 41, alive := true, exe := some "builtin/guard/guard-bin" }
                   status := .running
                   start_time := some 2 } }

/-- A tracked process-backed plugin whose process exited externally: the
dead handle is still stored (no probe has run yet) and exe() on it raises. -/
def exitedTracked : ProcessInfo :=
  { process := some { pid := 4242, alive := false, exe := none }
    status := .running
    start_time := some 0 }

/-- A tracked process-backed plugin after an explicit stop: handle cleared,
status Stopped. -/
def stoppedTracked : ProcessInfo := {}

/-- Claim C1 (code bug, evaluated at the failing input): the manager does
not guard protected plugins uniformly — stop on a builtin Python plugin
returns true and mutates its state (the stop event is set and the status is
forced to Loaded), and restart on a builtin binary plugin runs the full
stop/start cycle (here succeeding with a fresh pid); the builtin flag is
never consulted on these paths. -/
theorem C1_protected_ops_not_guarded :
    PluginManager.stop_plugin (some (.python builtinPy)) false false
      = (some (.python { builtinPy with stop_event := true, status := .loaded }), true)
    ∧ PluginManager.restart_plugin (some (.binary builtinBinRunning)) { load_ok := true }
        spawnOk false false 7
      = .ok (some (.binary { builtinBinRunning with
              pool := some { process := some { pid := 100, alive := true
                                               exe := some "builtin/guard/guard-bin" }
                             status := .running
                             start_time := some 7 } }), true) :=
  ⟨rfl, rfl⟩

/-- Claim C2 (code bug, evaluated at the failing input): restart derives the
executable path from the live handle, never from the manifest — on a plugin
whose process already exited the exe() call raises an uncaught exception,
and on a plugin whose handle was already cleared restart returns false
without starting anything. -/
theorem C2_restart_uses_handle_not_manifest :
    ProcessPool.restart_process (some exitedTracked) spawnOk false 5 = .error ()
    ∧ ProcessPool.restart_process (some stoppedTracked) spawnOk false 5
        = .ok (some stoppedTracked, false) :=
  ⟨rfl, rfl⟩

/-- Claim C9 counterexample: with a requested count of zero lines and an
existing two-line log file, getLogs returns the whole file (the Python slice
with negative-zero start degenerates), not at most zero lines. -/
theorem C9_counterexample :
    ¬ ((ProcessPool.get_process_logs true (some ["line one\n", "line two\n"]) 0).length ≤ 0) := by
  decide

/-- Claim C9 amended: for a requested count of at least one line, getLogs
returns the last that-many lines of the file (hence at most that many), and
the empty result when the log file does not exist or the plugin is
untracked; for a requested count of zero the slice degenerates and the whole
file is returned. -/
theorem C9_amended_log_tail (tracked : Bool) (logFile : Option (List String))
    (ls : List String) (n : Nat) (hn : 1 ≤ n) :
    (ProcessPool.get_process_logs tracked logFile n).length ≤ n
    ∧ ProcessPool.get_process_logs tracked none n = []
    ∧ ProcessPool.get_process_logs true (some ls) n = ls.drop (ls.length - n)
    ∧ ProcessPool.get_process_logs false (some ls) n = []
    ∧ ProcessPool.get_process_logs true (some ls) 0 = ls := by
  have hn0 : n ≠ 0 := Nat.one_le_iff_ne_zero.mp hn
  refine ⟨?_, ?_, ?_, ?_, ?_⟩
  · cases tracked with
    | false => simp [ProcessPool.get_process_logs]
    | true =>
        cases logFile with
        | none => simp [ProcessPool.get_process_logs]
        | some xs =>
            simp only [ProcessPool.get_process_logs, ProcessPool.pyTail, if_true,
              hn0, if_false]
            simp only [List.length_drop]
            omega
  · cases tracked <;> simp [ProcessPool.get_process_logs]
  · simp [ProcessPool.get_process_logs, ProcessPool.pyTail, hn0]
  · simp [ProcessPool.get_process_logs]
  · simp [ProcessPool.get_process_logs, ProcessPool.pyTail]

/-- Claim C9 amended, witness at a concrete input. -/
theorem C9_amended_log_tail_witness :
    (ProcessPool.get_process_logs true (some ["a\n", "b\n"]) 1).length ≤ 1
    ∧ ProcessPool.get_process_logs true none 1 = []
    ∧ ProcessPool.get_process_logs true (some ["a\n", "b\n"]) 1
        = (["a\n", "b\n"] : List String).drop ((["a\n", "b\n"] : List String).length - 1)
    ∧ ProcessPool.get_process_logs false (some ["a\n", "b\n"]) 1 = []
    ∧ ProcessPool.get_process_logs true (some ["a\n", "b\n"]) 0 = ["a\n", "b\n"] :=
  C9_amended_log_tail true (some ["a\n", "b\n"]) ["a\n", "b\n"] 1 (by decide)

/-- Claim C10: for a code-module-backed plugin the manager status call maps the
internal four-valued status through the loaded-check — Stopped exactly when
the internal status is loaded, Running for every other internal status
(unloaded and error included), and never Starting, Stopping, or Error. -/
theorem C10_python_status_mapping (p : PythonPlugin) (probeRaises : Bool)
    (now mem cpu : Nat) :
    ∃ st : PluginState,
      (PluginManager.get_plugin_status (some (.python p)) probeRaises now mem cpu).2
        = some st
      ∧ (st.status = .stopped ↔ p.status = .loaded)
      ∧ (st.status = .running ↔
          (p.status = .unloaded ∨ p.status = .running ∨ p.status = .error))
      ∧ st.pid = none := by
  refine ⟨_, rfl, ?_, ?_, rfl⟩ <;>
    cases h : p.status <;>
      simp [PluginManager.get_plugin_status, PythonPlugin.status_value,
        PyStatus.value, h]

/-- A process-backed plugin manifest with a default configuration, used
together with a persisted document that differs from it. -/
def nginxManifest : PluginManifest :=
  { name := "nginx-plugin", binary := "nginx-ctl", default_config := [("port", "80")] }

/-- The nginx plugin wrapper with the persisted document present. -/
def nginxPlugin : BinaryPlugin :=
  { manifest := nginxManifest
    plugin_dir := "plugins/nginx-plugin"
    persisted := some [("port", "8080")] }

/-- The merge rule asserted by the claim, modelled from the spec sentence:
the override is merged onto the persisted document when one exists, and onto
the manifest default only when none is persisted. -/
def claimed_effective_config (persisted : Option Config) (dflt override : Config) :
    Config :=
  dictUpdate (persisted.getD dflt) override

/-- Claim C3 counterexample: with a persisted document differing from the
default and an empty override, start persists the default-based merge, not
the persisted-based merge the claim requires. -/
theorem C3_counterexample :
    (nginxPlugin.start (some []) spawnOk 0).1.persisted = some [("port", "80")]
    ∧ claimed_effective_config nginxPlugin.persisted
        nginxManifest.default_config [] = [("port", "8080")]
    ∧ ([("port", "80")] : Config) ≠ [("port", "8080")] :=
  ⟨rfl, rfl, by decide⟩

/-- Claim C3 amended: start merges the override onto the manifest default
configuration — the persisted document is not consulted — persists the
merged document, and delegates to the owning backend, whose boolean verdict
(false on failure, never an exception) it returns; this holds for both
plugin kinds. -/
theorem C3_amended_start_merges_defaults (b : BinaryPlugin) (p : PythonPlugin)
    (cfg : Option Config) (env : PyModuleEnv) (spawn : String → Option Proc)
    (now : Nat) :
    (b.start cfg spawn now).1.persisted
      = some (dictUpdate b.manifest.default_config (cfg.getD []))
    ∧ (b.start cfg spawn now).2
        = (ProcessPool.start_process b.pool b.binary_path spawn now).2
    ∧ (b.start cfg spawn now).1.pool
        = (ProcessPool.start_process b.pool b.binary_path spawn now).1
    ∧ (p.start env cfg).1.persisted
        = some (dictUpdate p.info.default_config (cfg.getD [])) := by
  refine ⟨rfl, rfl, rfl, ?_⟩
  simp only [PythonPlugin.start, PythonPlugin.instantiate, PythonPlugin.load]
  repeat' split
  all_goals rfl

/-- A code-module-backed plugin instance exposing a worker loop but no
set_config hook. -/
def monitorInst : PyInstance := { attrs := [("run", .callableOk)], config := [] }

/-- The Running wrapper around that instance. -/
def monitorPy : PythonPlugin :=
  { info := { name := "monitor", entry_file := "monitor.py" }
    status := .running
    module_loaded := true
    inst := some monitorInst
    thread_alive := true }

/-- Claim C4 counterexample: setConfig on a Running code-module-backed
plugin persists the document and does nothing else — the stop event stays
clear, the instance is kept, and the status never leaves Running — so no
restart cycle is triggered. -/
theorem C4_counterexample :
    monitorPy.set_config [("interval", "5")]
      = ({ monitorPy with persisted := some [("interval", "5")] }, true)
    ∧ monitorPy.status = .running
    ∧ ({ monitorPy with persisted := some [("interval", "5")] }).stop_event = false
    ∧ ({ monitorPy with persisted := some [("interval", "5")] }).inst = monitorPy.inst :=
  ⟨rfl, rfl, rfl, rfl⟩

/-- Claim C4 amended: setConfig persists the document for both kinds.  A
process-backed plugin is additionally restarted exactly when the status
probe reports Running (the uncaught restart exception being caught here into
a false verdict), persists-only with verdict true when the probe reports any
other status, and yields false — after persisting — when the pool has no
entry to probe (the probe yields no state and reading its status raises, a
raise the surrounding except turns into false).  A code-module-backed plugin
is never restarted: beyond the persisted document (and its forwarding to an
instance set_config hook, whose effect is plugin-defined) the runtime state
is untouched. -/
theorem C4_amended_set_config (p : PythonPlugin) (cfg : Config)
    (b : BinaryPlugin) (spawn : String → Option Proc) (pr sr : Bool)
    (now : Nat) :
    (p.set_config cfg).1 = { p with persisted := some cfg }
    ∧ (b.set_config cfg spawn pr sr now).1.persisted = some cfg
    ∧ ((ProcessPool.get_process_state b.pool pr now 0 0).2 = none →
        b.set_config cfg spawn pr sr now
          = ({ b with persisted := some cfg
                      pool := (ProcessPool.get_process_state b.pool pr now 0 0).1 }, false))
    ∧ (∀ st : PluginState,
        (ProcessPool.get_process_state b.pool pr now 0 0).2 = some st →
        st.status ≠ .running →
        b.set_config cfg spawn pr sr now
          = ({ b with persisted := some cfg
                      pool := (ProcessPool.get_process_state b.pool pr now 0 0).1 }, true))
    ∧ (∀ st : PluginState,
        (ProcessPool.get_process_state b.pool pr now 0 0).2 = some st →
        st.status = .running →
        b.set_config cfg spawn pr sr now
          = match BinaryPlugin.restart
                { b with persisted := some cfg
                         pool := (ProcessPool.get_process_state b.pool pr now 0 0).1 }
                spawn sr now with
            | .error _ =>
                ({ b with persisted := some cfg
                          pool := (ProcessPool.get_process_state b.pool pr now 0 0).1 }, false)
            | .ok r => r) := by
  refine ⟨?_, ?_, ?_, ?_, ?_⟩
  · simp only [PythonPlugin.set_config]
    split <;> rfl
  · cases hpr : (ProcessPool.get_process_state b.pool pr now 0 0).2 with
    | none =>
        simp only [BinaryPlugin.set_config, BinaryPlugin.get_status, hpr]
    | some st =>
        simp only [BinaryPlugin.set_config, BinaryPlugin.get_status, hpr]
        split
        · cases hres : ProcessPool.restart_process
              ((ProcessPool.get_process_state b.pool pr now 0 0).1) spawn sr now with
          | error e => simp [BinaryPlugin.restart, hres]
          | ok r => simp [BinaryPlugin.restart, hres]
        · rfl
  · intro hnone
    simp only [BinaryPlugin.set_config, BinaryPlugin.get_status, hnone]
  · intro st hst hns
    simp only [BinaryPlugin.set_config, BinaryPlugin.get_status, hst,
      if_neg hns]
  · intro st hst hrun
    simp only [BinaryPlugin.set_config, BinaryPlugin.get_status, hst, hrun]
    simp

/-- Claim C4 amended, witness: the Running monitor plugin, a
tracked-but-stopped process-backed plugin (probe reports Stopped, so
persist-only with verdict true), and a never-started process-backed plugin
whose pool has no entry to probe (persist, verdict false). -/
theorem C4_amended_set_config_witness :
    (monitorPy.set_config [("k", "v")]).1
        = { monitorPy with persisted := some [("k", "v")] }
    ∧ (BinaryPlugin.set_config { manifest := nginxManifest
                                 plugin_dir := "plugins/nginx-plugin"
                                 pool := some stoppedTracked }
          [("k", "v")] spawnOk false false 3).1.persisted = some [("k", "v")]
    ∧ BinaryPlugin.set_config { manifest := nginxManifest
                                plugin_dir := "plugins/nginx-plugin"
                                pool := some stoppedTracked }
          [("k", "v")] spawnOk false false 3
        = ({ manifest := nginxManifest
             plugin_dir := "plugins/nginx-plugin"
             pool := (ProcessPool.get_process_state (some stoppedTracked) false 3 0 0).1
             persisted := some [("k", "v")] }, true)
    ∧ BinaryPlugin.set_config { manifest := nginxManifest
                                plugin_dir := "plugins/nginx-plugin"
                                pool := none }
          [("k", "v")] spawnOk false false 3
        = ({ manifest := nginxManifest
             plugin_dir := "plugins/nginx-plugin"
             pool := none
             persisted := some [("k", "v")] }, false) :=
  ⟨(C4_amended_set_config monitorPy [("k", "v")]
      { manifest := nginxManifest
        plugin_dir := "plugins/nginx-plugin"
        pool := some stoppedTracked } spawnOk false false 3).1,
   (C4_amended_set_config monitorPy [("k", "v")]
      { manifest := nginxManifest
        plugin_dir := "plugins/nginx-plugin"
        pool := some stoppedTracked } spawnOk false false 3).2.1,
   (C4_amended_set_config monitorPy [("k", "v")]
      { manifest := nginxManifest
        plugin_dir := "plugins/nginx-plugin"
        pool := some stoppedTracked } spawnOk false false 3).2.2.2.1
     { status := PluginStatus.stopped } rfl (by decide),
   (C4_amended_set_config monitorPy [("k", "v")]
      { manifest := nginxManifest
        plugin_dir := "plugins/nginx-plugin"
        pool := none } spawnOk false false 3).2.2.1 rfl⟩

/-- A code-module-backed plugin instance constructed with an older
configuration. -/
def busyInst : PyInstance :=
  { attrs := [("run", .callableOk)], config := [("mode", "old")] }

/-- A Running code-module-backed plugin holding that instance, with a live
worker. -/
def busyPy : PythonPlugin :=
  { info := { name := "worker", entry_file := "worker.py"
              default_config := [("mode", "fresh")] }
    status := .running
    module_loaded := true
    inst := some busyInst
    thread_alive := true
    persisted := some [("mode", "old")] }

/-- The module environment of a healthy plugin: it imports, exposes a Plugin
class whose constructor succeeds, and fresh instances carry a run loop. -/
def okEnv : PyModuleEnv :=
  { load_ok := true, has_plugin_class := true, init_ok := true
    new_attrs := [("run", .callableOk)] }

/-- Claim C5 counterexample: start on an already-Running code-module-backed
plugin does not return false — it re-loads the code unit, constructs a
second instance (replacing the first, with a freshly merged configuration),
relaunches the worker, and returns true. -/
theorem C5_counterexample :
    busyPy.status = .running
    ∧ (busyPy.start okEnv none).2 = true
    ∧ (busyPy.start okEnv none).1.inst
        = some { attrs := [("run", .callableOk)], config := [("mode", "fresh")] }
    ∧ (busyPy.start okEnv none).1.inst ≠ busyPy.inst :=
  ⟨rfl, rfl, rfl, by decide⟩

/-- Claim C5 amended: only the process-backed half of the claim holds —
start on a Running pool entry returns false leaving the entry untouched;
the code-module-backed runtime has no already-running guard: start on a
Running plugin whose module imports and instantiates re-loads the unit,
installs a fresh instance in place of the live one, and returns true. -/
theorem C5_amended_no_running_guard (pi : ProcessInfo) (path : String)
    (spawn : String → Option Proc) (now : Nat) (p : PythonPlugin)
    (env : PyModuleEnv) (cfg : Option Config)
    (hpi : pi.status = .running) (hp : p.status = .running)
    (hl : env.load_ok = true) (hc : env.has_plugin_class = true)
    (hi : env.init_ok = true) :
    ProcessPool.start_process (some pi) path spawn now = (some pi, false)
    ∧ (p.start env cfg).2 = true
    ∧ (p.start env cfg).1.inst
        = some ⟨env.new_attrs,
                dictUpdate p.info.default_config
                  (dictUpdate p.info.default_config (cfg.getD []))⟩ := by
  refine ⟨?_, ?_, ?_⟩
  · simp [ProcessPool.start_process, hpi]
  · simp only [PythonPlugin.start, PythonPlugin.instantiate, PythonPlugin.load,
      hp, hl, hc, hi]
    simp
    split <;> rfl
  · simp only [PythonPlugin.start, PythonPlugin.instantiate, PythonPlugin.load,
      hp, hl, hc, hi]
    simp
    split <;> rfl

/-- Claim C5 amended, witness: a Running tracked process and the busy Python
worker. -/
theorem C5_amended_no_running_guard_witness :
    ProcessPool.start_process (some { process := some { pid := 9, alive := true
                                                        exe := some "w" }
                                      status := .running
                                      start_time := some 1 }) "w" spawnOk 6
      = (some { process := some { pid := 9, alive := true, exe := some "w" }
                status := .running
                start_time := some 1 }, false)
    ∧ (busyPy.start okEnv none).2 = true
    ∧ (busyPy.start okEnv none).1.inst
        = some ⟨okEnv.new_attrs,
                dictUpdate busyPy.info.default_config
                  (dictUpdate busyPy.info.default_config
                    ((none : Option Config).getD []))⟩ :=
  C5_amended_no_running_guard
    { process := some { pid := 9, alive := true, exe := some "w" }
      status := .running
      start_time := some 1 } "w" spawnOk 6 busyPy okEnv none rfl rfl rfl rfl rfl

/-- A code-module-backed plugin fresh from discovery: never loaded. -/
def freshPy : PythonPlugin :=
  { info := { name := "hello-plugin", entry_file := "hello.py" } }

/-- Claim C6 counterexample: stop on a process-backed plugin that has never
been started (untracked in the pool) returns false, and stop on an Unloaded
code-module-backed plugin returns true but changes state — the stop event is
set and the status is forced to Loaded. -/
theorem C6_counterexample :
    ProcessPool.stop_process none false = (none, false)
    ∧ freshPy.status = .unloaded
    ∧ freshPy.stop false
        = ({ freshPy with stop_event := true, status := .loaded }, true) :=
  ⟨rfl, rfl, rfl⟩

/-- Claim C6 amended: stop on a tracked process-backed plugin whose cached
status is anything other than Running returns true and leaves the entry
unchanged, but on a never-started (untracked) plugin it returns false; stop
on a code-module-backed plugin whose instance stop hook does not raise
returns true yet always sets the stop signal and forces the status to Loaded
— an Unloaded plugin comes out Loaded. -/
theorem C6_amended_stop_idempotence (pi : ProcessInfo) (sr jt : Bool)
    (p : PythonPlugin)
    (hpi : pi.status ≠ .running)
    (hp : p.inst.bind (fun i => i.getattr "stop") ≠ some .callableRaises) :
    ProcessPool.stop_process (some pi) sr = (some pi, true)
    ∧ ProcessPool.stop_process none sr = (none, false)
    ∧ (p.stop jt).2 = true
    ∧ (p.stop jt).1.status = .loaded
    ∧ (p.stop jt).1.stop_event = true := by
  refine ⟨?_, rfl, ?_, ?_, ?_⟩
  · simp [ProcessPool.stop_process, hpi]
  · simp [PythonPlugin.stop, hp]
  · simp [PythonPlugin.stop, hp]
  · simp [PythonPlugin.stop, hp]

/-- Claim C6 amended, witness: a tracked Stopped entry and the fresh
Unloaded Python plugin. -/
theorem C6_amended_stop_idempotence_witness :
    ProcessPool.stop_process (some stoppedTracked) false = (some stoppedTracked, true)
    ∧ ProcessPool.stop_process none false = (none, false)
    ∧ (freshPy.stop true).2 = true
    ∧ (freshPy.stop true).1.status = .loaded
    ∧ (freshPy.stop true).1.stop_event = true :=
  C6_amended_stop_idempotence stoppedTracked false true freshPy
    (by decide) (by decide)

/-- The direction of the claimed handle invariant that the code does
maintain: whenever the cached status is Running or Stopping, a handle is
stored. -/
def handleInvariant (pi : ProcessInfo) : Prop :=
  pi.status = .running ∨ pi.status = .stopping → pi.process.isSome = true

/-- The invariant lifted to a possibly-untracked pool entry. -/
def handleInvariantO : Option ProcessInfo → Prop
  | none => True
  | some pi => handleInvariant pi

/-- start_process preserves the handle invariant. -/
theorem handleInvariant_start (st : Option ProcessInfo) (path : String)
    (spawn : String → Option Proc) (now : Nat) (h : handleInvariantO st) :
    handleInvariantO (ProcessPool.start_process st path spawn now).1 := by
  simp only [ProcessPool.start_process]
  split
  next hcond =>
    cases st with
    | none => exact absurd hcond (by decide)
    | some pi => exact h
  next hcond =>
    cases hs : spawn path with
    | none => simp [hs, handleInvariantO, handleInvariant]
    | some p =>
        cases ha : p.alive <;> simp [hs, ha, handleInvariantO, handleInvariant]

/-- stop_process preserves the handle invariant. -/
theorem handleInvariant_stop (st : Option ProcessInfo) (sr : Bool)
    (h : handleInvariantO st) :
    handleInvariantO (ProcessPool.stop_process st sr).1 := by
  cases st with
  | none => exact trivial
  | some pi =>
      simp only [ProcessPool.stop_process]
      split
      · exact h
      · split <;> simp [handleInvariantO, handleInvariant]

/-- get_process_state preserves the handle invariant. -/
theorem handleInvariant_probe (st : Option ProcessInfo) (pr : Bool)
    (now mem cpu : Nat) (h : handleInvariantO st) :
    handleInvariantO (ProcessPool.get_process_state st pr now mem cpu).1 := by
  cases st with
  | none => exact trivial
  | some pi =>
      simp only [ProcessPool.get_process_state]
      cases hp : pi.process with
      | none => simpa [hp] using h
      | some p =>
          by_cases hpr : pr = true
          · simp [hp, hpr, handleInvariantO, handleInvariant]
          · replace hpr : pr = false := by simpa using hpr
            cases ha : p.alive <;>
              simp [hp, hpr, ha, handleInvariantO, handleInvariant]

/-- restart_process preserves the handle invariant on every non-raising
outcome. -/
theorem handleInvariant_restart (st : Option ProcessInfo)
    (spawn : String → Option Proc) (sr : Bool) (now : Nat)
    (r : Option ProcessInfo × Bool)
    (h : handleInvariantO st)
    (hr : ProcessPool.restart_process st spawn sr now = .ok r) :
    handleInvariantO r.1 := by
  cases st with
  | none =>
      simp only [ProcessPool.restart_process] at hr
      cases hr
      exact trivial
  | some pi =>
      cases hp : pi.process with
      | none =>
          simp only [ProcessPool.restart_process, hp] at hr
          cases hr
          exact h
      | some p =>
          cases he : p.exe with
          | none =>
              simp only [ProcessPool.restart_process, hp, he] at hr
              exact nomatch hr
          | some path =>
              by_cases hemp : path = ""
              · simp only [ProcessPool.restart_process, hp, he] at hr
                rw [if_pos hemp] at hr
                cases hr
                exact h
              · simp only [ProcessPool.restart_process, hp, he] at hr
                rw [if_neg hemp] at hr
                cases hr
                exact handleInvariant_start _ path spawn now
                  (handleInvariant_stop (some pi) sr h)

/-- Claim C7 counterexample: a probe that detects an externally killed
process moves the cached status to Stopped yet leaves the dead handle
stored, and a spawn whose liveness confirmation fails leaves the handle
stored under status Error — refuting the only-if direction of the claimed
invariant. -/
theorem C7_counterexample :
    (∃ pi : ProcessInfo,
      (ProcessPool.get_process_state (some exitedTracked) false 9 3 4).1 = some pi
      ∧ pi.process.isSome = true ∧ pi.status = .stopped)
    ∧ (∃ pi : ProcessInfo,
      (ProcessPool.start_process (some stoppedTracked) "x"
          (fun path => some { pid := 77, alive := false, exe := some path }) 4).1
        = some pi
      ∧ pi.process.isSome = true ∧ pi.status = .error) :=
  ⟨⟨{ exitedTracked with status := .stopped }, rfl, rfl, rfl⟩,
   ⟨{ stoppedTracked with
        process := some { pid := 77, alive := false, exe := some "x" }
        start_time := some 4, status := .error }, rfl, rfl, rfl⟩⟩

/-- Claim C7 amended: only the if direction holds — a Running or Stopping
entry always stores a handle, and this is preserved by start, stop, probe
and every non-raising restart; the converse fails (see the counterexample):
a failed spawn confirmation keeps the dead handle under Error and an
external-kill probe keeps it under Stopped, the handle being cleared only by
an explicit successful stop. -/
theorem C7_amended_handle_invariant (st : Option ProcessInfo) (path : String)
    (spawn : String → Option Proc) (sr pr : Bool) (now mem cpu : Nat)
    (r : Option ProcessInfo × Bool)
    (h : handleInvariantO st)
    (hr : ProcessPool.restart_process st spawn sr now = .ok r) :
    handleInvariantO (ProcessPool.start_process st path spawn now).1
    ∧ handleInvariantO (ProcessPool.stop_process st sr).1
    ∧ handleInvariantO (ProcessPool.get_process_state st pr now mem cpu).1
    ∧ handleInvariantO r.1 :=
  ⟨handleInvariant_start st path spawn now h,
   handleInvariant_stop st sr h,
   handleInvariant_probe st pr now mem cpu h,
   handleInvariant_restart st spawn sr now r h hr⟩

/-- Claim C7 amended, witness: the stopped tracked entry, restarted (which
fails having no handle, leaving the entry as it was). -/
theorem C7_amended_handle_invariant_witness :
    handleInvariantO (ProcessPool.start_process (some stoppedTracked) "x" spawnOk 1).1
    ∧ handleInvariantO (ProcessPool.stop_process (some stoppedTracked) false).1
    ∧ handleInvariantO (ProcessPool.get_process_state (some stoppedTracked) false 1 0 0).1
    ∧ handleInvariantO (some stoppedTracked, false).1 :=
  C7_amended_handle_invariant (some stoppedTracked) "x" spawnOk false false 1 0 0
    (some stoppedTracked, false)
    (by simp [handleInvariantO, handleInvariant, stoppedTracked])
    rfl

/-- A live instance whose attribute table also carries an
underscore-prefixed internal method — declared in no manifest. -/
def leakyInst : PyInstance :=
  { attrs := [("run", .callableOk), ("_drop_all_data", .callableOk)], config := [] }

/-- The Running wrapper around the leaky instance. -/
def leakyPy : PythonPlugin :=
  { info := { name := "toolbox", entry_file := "toolbox.py" }
    status := .running
    module_loaded := true
    inst := some leakyInst
    thread_alive := true }

/-- An underscore-prefixed (internal or dunder) attribute name: the head
character of the name is the underscore. -/
def isInternalName (c : String) : Bool :=
  c.data.head? = some (Char.ofNat 95)

/-- Claim C8 counterexample: command dispatch is unrestricted attribute
access — an underscore-prefixed internal method, which no allow-pattern of
named commands would admit (the Python plugin info declares no command list
at all), is invoked rather than rejected. -/
theorem C8_counterexample :
    ¬ (∀ (p : PythonPlugin) (c : String), isInternalName c = true →
        p.execute_command c ≠ CmdResult.invoked c) :=
  fun h => h leakyPy "_drop_all_data" (by decide) rfl

/-- Claim C8 amended: executeCommand returns the structured not-running
error whenever no live instance exists; with one, it resolves the command by
unrestricted getattr on the instance — every callable attribute, internal or
not, is invoked (a raising one yielding a structured error) — and only an
absent or non-callable attribute yields the structured command-not-found
error with nothing invoked. -/
theorem C8_amended_unrestricted_dispatch (p : PythonPlugin) (i : PyInstance)
    (c : String) (hi : p.inst = some i) :
    PythonPlugin.execute_command { p with inst := none } c = .errNotRunning
    ∧ (i.getattr c = some .callableOk → p.execute_command c = .invoked c)
    ∧ (i.getattr c = some .callableRaises → p.execute_command c = .errRaised c)
    ∧ (i.getattr c = none → p.execute_command c = .errNotFound c)
    ∧ (i.getattr c = some .plain → p.execute_command c = .errNotFound c) := by
  refine ⟨rfl, ?_, ?_, ?_, ?_⟩ <;>
    intro hc <;> simp [PythonPlugin.execute_command, hi, hc]

/-- Claim C8 amended, witness: the leaky toolbox instance and its internal
method. -/
theorem C8_amended_unrestricted_dispatch_witness :
    PythonPlugin.execute_command { leakyPy with inst := none } "_drop_all_data"
        = .errNotRunning
    ∧ (leakyInst.getattr "_drop_all_data" = some .callableOk →
        leakyPy.execute_command "_drop_all_data" = .invoked "_drop_all_data")
    ∧ (leakyInst.getattr "_drop_all_data" = some .callableRaises →
        leakyPy.execute_command "_drop_all_data" = .errRaised "_drop_all_data")
    ∧ (leakyInst.getattr "_drop_all_data" = none →
        leakyPy.execute_command "_drop_all_data" = .errNotFound "_drop_all_data")
    ∧ (leakyInst.getattr "_drop_all_data" = some .plain →
        leakyPy.execute_command "_drop_all_data" = .errNotFound "_drop_all_data") :=
  C8_amended_unrestricted_dispatch leakyPy leakyInst "_drop_all_data" rfl

end RLink
